import Mathlib

/-!
Verification of the forecasting-ensemble and anomaly-detection core of the
Planning-Energy-Demand-Forecasting-Agent repository.

The Python source is embedded shallowly: numpy arrays become lists of
rationals, pandas column arithmetic becomes elementwise list operations,
raised exceptions become `Except.error`, and the IEEE special values that
pandas produces on division by zero are modelled by the `PFloat` type.
Timestamps are dropped from forecast rows: no claim refers to them, and they
are generated independently of the numeric pipeline.
-/

/-- Errors raised by the models.  The source raises `ValueError` with a
distinguishing message; each constructor corresponds to one message site:
`modelsNotTrained` is ValueError at ensemble_predictor.py line 76
(predict before train), `bothModelsFailed` is the ValueError at line 110,
and `modelNotTrained` is the ValueError in `LSTMForecaster.predict_sequence`
(lstm_model.py line 96 and lstm_model_lite.py line 64). -/
inductive PredictError where
  | modelsNotTrained : PredictError
  | bothModelsFailed : PredictError
  | modelNotTrained : PredictError
deriving DecidableEq

/-- One row of the forecast table built by `EnsemblePredictor.predict`
(ensemble_predictor.py lines 117-124); the `timestamp` column is omitted. -/
structure ForecastRow where
  predicted_demand : ℚ
  lower_bound : ℚ
  upper_bound : ℚ
  lstm_prediction : ℚ
  prophet_prediction : ℚ
deriving DecidableEq

/-- config.py ENSEMBLE_WEIGHTS, key lstm. -/
def weight_lstm : ℚ := 6 / 10

/-- config.py ENSEMBLE_WEIGHTS, key prophet. -/
def weight_prophet : ℚ := 4 / 10

/-- One row of the both-models branch of `EnsemblePredictor.predict`
(ensemble_predictor.py lines 92-99 and 117-124): weighted average point,
uncertainty 0.5 times the absolute disagreement, bounds point plus/minus
uncertainty, raw columns carry the two sub-model values. -/
def combineRow (a b : ℚ) : ForecastRow :=
  let pt := weight_lstm * a + weight_prophet * b
  let u := |a - b| * (1 / 2)
  ⟨pt, pt - u, pt + u, a, b⟩

/-- One row of the single-model branch of `EnsemblePredictor.predict`
(ensemble_predictor.py lines 101-107 and 117-124): the surviving forecast is
the point, uncertainty is 10 percent of it, and both raw columns fall back
to the ensemble point. -/
def singleRow (a : ℚ) : ForecastRow :=
  let u := a * (1 / 10)
  ⟨a, a - u, a + u, a, a⟩

/-- EnsemblePredictor.predict (ensemble_predictor.py lines 70-126).  The two
sub-model forecasts arrive as `Option` values: `none` models a sub-model
whose prediction raised (caught at lines 79-89) or returned None.  The
elementwise numpy arithmetic on the two equal-length forecast arrays becomes
`List.zipWith`. -/
def EnsemblePredictor.predict (trained : Bool) (lstm_pred prophet_pred : Option (List ℚ)) :
    Except PredictError (List ForecastRow) :=
  if trained = false then .error .modelsNotTrained
  else
    match lstm_pred, prophet_pred with
    | some l, some p => .ok (List.zipWith combineRow l p)
    | some l, none => .ok (l.map singleRow)
    | none, some p => .ok (p.map singleRow)
    | none, none => .error .bothModelsFailed

/-- Helper: `zipWith` at an index where both lists are defined. -/
theorem zipWith_get?_some {α β γ : Type} (f : α → β → γ) :
    ∀ (l : List α) (p : List β) (i : ℕ) (a : α) (b : β),
      l.get? i = some a → p.get? i = some b →
      (List.zipWith f l p).get? i = some (f a b) := by
  intro l
  induction l with
  | nil => intro p i a b h _; simp at h
  | cons x xs ih =>
    intro p i a b hl hp
    cases p with
    | nil => simp at hp
    | cons y ys =>
      cases i with
      | zero =>
        simp only [List.get?] at hl hp
        injection hl with hl
        injection hp with hp
        subst hl
        subst hp
        rfl
      | succ i =>
        simp only [List.get?] at hl hp ⊢
        exact ih ys i a b hl hp

/-- Claim C1: when both the LSTM and the Prophet forecasts are present, every
point estimate produced by `EnsemblePredictor.predict` is the weighted average
0.6 lstm + 0.4 prophet (the default configured weights), the uncertainty is
half the absolute disagreement, and the bounds are point minus/plus that
uncertainty, at every forecast step. -/
theorem C1_both_present_weighted_average (l p : List ℚ) (rows : List ForecastRow)
    (h : EnsemblePredictor.predict true (some l) (some p) = .ok rows)
    (i : ℕ) (a b : ℚ) (ha : l.get? i = some a) (hb : p.get? i = some b) :
    ∃ r : ForecastRow, rows.get? i = some r ∧
      r.predicted_demand = (6 / 10) * a + (4 / 10) * b ∧
      r.lower_bound = r.predicted_demand - (1 / 2) * |a - b| ∧
      r.upper_bound = r.predicted_demand + (1 / 2) * |a - b| := by
  have hrows : rows = List.zipWith combineRow l p := by
    simpa [EnsemblePredictor.predict] using h.symm
  subst hrows
  refine ⟨combineRow a b, zipWith_get?_some combineRow l p i a b ha hb, ?_, ?_, ?_⟩
  · simp [combineRow, weight_lstm, weight_prophet]
  · simp only [combineRow]; ring
  · simp only [combineRow]; ring

/-- Witness for C1 at the concrete forecasts [10] and [20]. -/
theorem C1_both_present_weighted_average_witness :
    ∃ r : ForecastRow, (List.zipWith combineRow [10] [20]).get? 0 = some r ∧
      r.predicted_demand = (6 / 10) * 10 + (4 / 10) * 20 ∧
      r.lower_bound = r.predicted_demand - (1 / 2) * |(10 : ℚ) - 20| ∧
      r.upper_bound = r.predicted_demand + (1 / 2) * |(10 : ℚ) - 20| :=
  C1_both_present_weighted_average [10] [20] (List.zipWith combineRow [10] [20])
    rfl 0 10 20 rfl rfl

/-- Pandas/numpy floating values produced by the confidence computation of
ensemble_predictor.py lines 133-135: a finite value, one of the two
infinities produced by dividing a nonzero number by zero, or NaN produced
by dividing zero by zero.  NaN propagates through arithmetic and through
`Series.clip`, which is how the source behaves. -/
inductive PFloat where
  | fin : ℚ → PFloat
  | pinf : PFloat
  | ninf : PFloat
  | nan : PFloat
deriving DecidableEq

/-- IEEE division of two finite values, as numpy/pandas perform it inside
`100 * (1 - (upper - lower) / (2 * predicted))`. -/
def fdiv (a b : ℚ) : PFloat :=
  if b ≠ 0 then .fin (a / b)
  else if 0 < a then .pinf
  else if a < 0 then .ninf
  else .nan

/-- Subtraction of a PFloat from a finite constant, c - x. -/
def PFloat.rsub (c : ℚ) : PFloat → PFloat
  | .fin q => .fin (c - q)
  | .pinf => .ninf
  | .ninf => .pinf
  | .nan => .nan

/-- Multiplication by a positive finite constant (used with c = 100). -/
def PFloat.smulPos (c : ℚ) : PFloat → PFloat
  | .fin q => .fin (c * q)
  | .pinf => .pinf
  | .ninf => .ninf
  | .nan => .nan

/-- pandas `Series.clip(lo, hi)`: finite values are clamped, infinities
collapse to the corresponding bound, NaN is left untouched. -/
def PFloat.clip (lo hi : ℚ) : PFloat → PFloat
  | .fin q => .fin (max lo (min hi q))
  | .pinf => .fin hi
  | .ninf => .fin lo
  | .nan => .nan

/-- Confidence of one forecast row, ensemble_predictor.py lines 133-135:
`clip(100 * (1 - (upper - lower) / (2 * predicted)), 0, 100)` with IEEE
semantics for the division; the source has no explicit zero-denominator
guard. -/
def ensembleConfidence (lower upper point : ℚ) : PFloat :=
  PFloat.clip 0 100 (PFloat.smulPos 100 (PFloat.rsub 1 (fdiv (upper - lower) (2 * point))))

/-- EnsemblePredictor.predict_with_confidence (ensemble_predictor.py lines
128-137): the rows of `predict` with the per-row confidence column added. -/
def EnsemblePredictor.predict_with_confidence (trained : Bool)
    (lstm_pred prophet_pred : Option (List ℚ)) :
    Except PredictError (List (ForecastRow × PFloat)) :=
  (EnsemblePredictor.predict trained lstm_pred prophet_pred).map
    (fun rows => rows.map (fun r =>
      (r, ensembleConfidence r.lower_bound r.upper_bound r.predicted_demand)))

/-- Helper: confidence at a nonzero point is the clipped finite formula. -/
theorem ensembleConfidence_ne_zero (l u p : ℚ) (hp : p ≠ 0) :
    ensembleConfidence l u p =
      .fin (max 0 (min 100 (100 * (1 - (u - l) / (2 * p))))) := by
  have h2 : (2 : ℚ) * p ≠ 0 := mul_ne_zero two_ne_zero hp
  simp [ensembleConfidence, fdiv, h2, PFloat.rsub, PFloat.smulPos, PFloat.clip]

/-- Helper: confidence at point zero with a strictly positive interval width
is 0 (the division yields positive infinity, which clips to the lower bound). -/
theorem ensembleConfidence_zero_pos (l u : ℚ) (hlu : l < u) :
    ensembleConfidence l u 0 = .fin 0 := by
  have hnum : 0 < u - l := sub_pos.mpr hlu
  have hf : fdiv (u - l) 0 = .pinf := by
    simp [fdiv, hnum]
  simp [ensembleConfidence, hf, PFloat.rsub, PFloat.smulPos, PFloat.clip]

/-- Helper: confidence at point zero with coinciding bounds is NaN (0/0). -/
theorem ensembleConfidence_zero_nan (l u : ℚ) (hlu : u = l) :
    ensembleConfidence l u 0 = .nan := by
  subst hlu
  simp [ensembleConfidence, fdiv, PFloat.rsub, PFloat.smulPos, PFloat.clip]

/-- Helper: the clipped value lies in [0, 100]. -/
theorem clip_mem_range (v : ℚ) : 0 ≤ max 0 (min 100 v) ∧ max 0 (min 100 v) ≤ 100 :=
  ⟨le_max_left 0 _, max_le (by norm_num) (min_le_left 100 v)⟩

/-- Helper: membership in a `zipWith` image. -/
theorem mem_zipWith_exists {α β γ : Type} (f : α → β → γ) :
    ∀ {l : List α} {p : List β} {c : γ}, c ∈ List.zipWith f l p → ∃ a b, c = f a b := by
  intro l
  induction l with
  | nil => intro p c h; simp [List.zipWith] at h
  | cons x xs ih =>
    intro p c h
    cases p with
    | nil => simp [List.zipWith] at h
    | cons y ys =>
      rcases (by simpa [List.zipWith] using h : c = f x y ∨ c ∈ List.zipWith f xs ys) with h | h
      · exact ⟨x, y, h⟩
      · exact ih h

/-- Helper: in every row produced by `predict`, a zero point estimate forces
the interval width upper - lower to be zero or strictly positive (in the
single-model branches the width is 2 * point / 10 = 0, in the both-models
branch it is the nonnegative absolute disagreement). -/
theorem predict_row_zero_width (trained : Bool) (lp pp : Option (List ℚ))
    (rows : List ForecastRow) (h : EnsemblePredictor.predict trained lp pp = .ok rows)
    (r : ForecastRow) (hr : r ∈ rows) (h0 : r.predicted_demand = 0) :
    r.upper_bound - r.lower_bound = 0 ∨ 0 < r.upper_bound - r.lower_bound := by
  cases trained with
  | false => simp [EnsemblePredictor.predict] at h
  | true =>
    cases lp with
    | none =>
      cases pp with
      | none => simp [EnsemblePredictor.predict] at h
      | some p =>
        have hrows : rows = p.map singleRow := by
          simpa [EnsemblePredictor.predict] using h.symm
        subst hrows
        rcases List.mem_map.mp hr with ⟨a, _, rfl⟩
        left
        simp only [singleRow] at h0 ⊢
        rw [h0]
        ring
    | some l =>
      cases pp with
      | none =>
        have hrows : rows = l.map singleRow := by
          simpa [EnsemblePredictor.predict] using h.symm
        subst hrows
        rcases List.mem_map.mp hr with ⟨a, _, rfl⟩
        left
        simp only [singleRow] at h0 ⊢
        rw [h0]
        ring
      | some p =>
        have hrows : rows = List.zipWith combineRow l p := by
          simpa [EnsemblePredictor.predict] using h.symm
        subst hrows
        rcases mem_zipWith_exists combineRow hr with ⟨a, b, rfl⟩
        have habs : 0 ≤ |a - b| := abs_nonneg (a - b)
        simp only [combineRow]
        rcases eq_or_lt_of_le habs with h1 | h1
        · left; nlinarith
        · right; nlinarith

/-- Claim C2 amended: for every row of `predict_with_confidence`, when the
point estimate is nonzero the confidence is the clipped formula
`clip(100 * (1 - (upper - lower) / (2 * point)), 0, 100)` and lies in
[0, 100]; when the point estimate is zero and the bounds differ, the
division by zero produces an infinity that the clip collapses to 0; but when
the point estimate is zero and the bounds coincide the confidence is NaN
(0/0 is not guarded), so it is neither 0 nor inside [0, 100]. -/
theorem C2_confidence_amended (trained : Bool) (lp pp : Option (List ℚ))
    (rows : List (ForecastRow × PFloat))
    (h : EnsemblePredictor.predict_with_confidence trained lp pp = .ok rows)
    (rc : ForecastRow × PFloat) (hm : rc ∈ rows) :
    (rc.1.predicted_demand ≠ 0 →
      rc.2 = .fin (max 0 (min 100 (100 * (1 -
        (rc.1.upper_bound - rc.1.lower_bound) / (2 * rc.1.predicted_demand))))) ∧
      ∃ c : ℚ, rc.2 = .fin c ∧ 0 ≤ c ∧ c ≤ 100) ∧
    (rc.1.predicted_demand = 0 → rc.1.lower_bound ≠ rc.1.upper_bound → rc.2 = .fin 0) ∧
    (rc.1.predicted_demand = 0 → rc.1.lower_bound = rc.1.upper_bound → rc.2 = .nan) := by
  cases hpred : EnsemblePredictor.predict trained lp pp with
  | error e =>
    rw [EnsemblePredictor.predict_with_confidence, hpred] at h
    simp [Except.map] at h
  | ok rows0 =>
    rw [EnsemblePredictor.predict_with_confidence, hpred] at h
    simp only [Except.map, Except.ok.injEq] at h
    subst h
    rcases List.mem_map.mp hm with ⟨r, hr, heq⟩
    have h1 : rc.1 = r := by rw [← heq]
    have h2 : rc.2 = ensembleConfidence r.lower_bound r.upper_bound r.predicted_demand := by
      rw [← heq]
    rw [h1, h2]
    refine ⟨?_, ?_, ?_⟩
    · intro hp
      refine ⟨ensembleConfidence_ne_zero _ _ _ hp,
        max 0 (min 100 (100 * (1 - (r.upper_bound - r.lower_bound) / (2 * r.predicted_demand)))),
        ensembleConfidence_ne_zero _ _ _ hp, (clip_mem_range _).1, (clip_mem_range _).2⟩
    · intro hp hne
      rcases predict_row_zero_width trained lp pp rows0 hpred r hr hp with h0 | h0
      · exact absurd (by linarith) hne
      · rw [hp]
        exact ensembleConfidence_zero_pos _ _ (by linarith)
    · intro hp heq2
      rw [hp]
      exact ensembleConfidence_zero_nan _ _ heq2.symm

/-- Counterexample to C2 as stated: on a single surviving forecast whose
point estimate is 0, the interval width is 2 * 0 / 10 = 0 and the confidence
computation divides 0 by 0, producing NaN — the confidence is not "defined as
0" and is not in [0, 100]; no guard exists in the source. -/
theorem C2_point_zero_counterexample :
    EnsemblePredictor.predict_with_confidence true (some [0]) none =
      .ok [(singleRow 0, PFloat.nan)] ∧ PFloat.nan ≠ PFloat.fin 0 := by
  constructor
  · simp [EnsemblePredictor.predict_with_confidence, EnsemblePredictor.predict, Except.map,
      singleRow, ensembleConfidence, fdiv, PFloat.rsub, PFloat.smulPos, PFloat.clip]
  · simp

/-- Concrete row used by the C2 witness: both forecasts present, values 2
and 4, so the point is 14/5 and the confidence finite. -/
def rcSample : ForecastRow × PFloat :=
  (combineRow 2 4, ensembleConfidence (combineRow 2 4).lower_bound
    (combineRow 2 4).upper_bound (combineRow 2 4).predicted_demand)

/-- Witness for the amended C2 at concrete forecasts [2] and [4]. -/
theorem C2_confidence_amended_witness :
    rcSample.2 = .fin (max 0 (min 100 (100 * (1 -
      (rcSample.1.upper_bound - rcSample.1.lower_bound) / (2 * rcSample.1.predicted_demand))))) ∧
    ∃ c : ℚ, rcSample.2 = .fin c ∧ 0 ≤ c ∧ c ≤ 100 :=
  (C2_confidence_amended true (some [2]) (some [4]) [rcSample] rfl rcSample
    (List.mem_singleton.mpr rfl)).1
    (by norm_num [rcSample, combineRow, weight_lstm, weight_prophet])

/-- One row of the frame returned by `ProphetForecaster.predict_future`
(prophet_model.py lines 69-76): columns yhat, yhat_lower, yhat_upper
(the ds timestamp column is omitted). -/
structure ProphetRow where
  yhat : ℚ
  yhat_lower : ℚ
  yhat_upper : ℚ
deriving DecidableEq

/-- EnsemblePredictor.predict_prophet (ensemble_predictor.py lines 65-68):
only the yhat column of the Prophet forecast is kept; the native
yhat_lower/yhat_upper bounds are discarded. -/
def EnsemblePredictor.predict_prophet (forecast : List ProphetRow) : List ℚ :=
  forecast.map (·.yhat)

/-- The call chain `predict → predict_prophet` in the situation where the
LSTM prediction failed and only the Prophet forecast (with its native
bounds) survives. -/
def EnsemblePredictor.predictFromProphetOnly (trained : Bool)
    (forecast : List ProphetRow) : Except PredictError (List ForecastRow) :=
  EnsemblePredictor.predict trained none (some (EnsemblePredictor.predict_prophet forecast))

/-- Claim C3 amended: when exactly one forecast is present the point
estimate is that forecast and the uncertainty is always the fixed 10
percent band, so bounds are point plus/minus point/10 — including when the
surviving forecast is the Prophet forecast, whose native yhat_lower and
yhat_upper bounds are discarded by predict_prophet and never used. -/
theorem C3_single_forecast_band (l : List ℚ) (pr : List ProphetRow) (a : ℚ) :
    EnsemblePredictor.predict true (some l) none = .ok (l.map singleRow) ∧
    EnsemblePredictor.predict true none (some l) = .ok (l.map singleRow) ∧
    (singleRow a).predicted_demand = a ∧
    (singleRow a).lower_bound = a - a * (1 / 10) ∧
    (singleRow a).upper_bound = a + a * (1 / 10) ∧
    EnsemblePredictor.predictFromProphetOnly true pr =
      .ok ((pr.map (·.yhat)).map singleRow) := by
  refine ⟨rfl, rfl, rfl, rfl, rfl, rfl⟩

/-- Counterexample to C3 as stated: a Prophet-only forecast row with point
10 and native bounds (2, 30) yields ensemble bounds (9, 11) — the fixed 10
percent band — not the native bounds. -/
theorem C3_native_bounds_counterexample :
    EnsemblePredictor.predictFromProphetOnly true [⟨10, 2, 30⟩] =
      .ok [⟨10, 9, 11, 10, 10⟩] ∧ (9 : ℚ) ≠ 2 ∧ (11 : ℚ) ≠ 30 := by
  refine ⟨?_, by norm_num, by norm_num⟩
  have : singleRow 10 = ⟨10, 9, 11, 10, 10⟩ := by
    simp only [singleRow, ForecastRow.mk.injEq]
    norm_num
  simp [EnsemblePredictor.predictFromProphetOnly, EnsemblePredictor.predict,
    EnsemblePredictor.predict_prophet, this]

/-- Claim C4: on a trained ensemble, when both individual forecasters fail
(`none` for both sub-forecasts) `predict` itself raises — modelled as the
error `bothModelsFailed`, the ValueError at ensemble_predictor.py line 110 —
and no forecast rows are produced; when only one forecaster fails, a result
is still returned. -/
theorem C4_both_failed_error (l p : List ℚ) :
    EnsemblePredictor.predict true none none = .error .bothModelsFailed ∧
    (∃ rows, EnsemblePredictor.predict true (some l) none = .ok rows) ∧
    (∃ rows, EnsemblePredictor.predict true none (some p) = .ok rows) :=
  ⟨rfl, ⟨l.map singleRow, rfl⟩, ⟨p.map singleRow, rfl⟩⟩

/-- Covariates of the new last row in one rollout step (lstm_model.py lines
110-115, identical in lstm_model_lite.py lines 80-83): `features[i]` when
step i has provided future covariates, otherwise columns 1.. of the last
row of the current window. -/
def rolloutCov (features : List (List ℚ)) (i : ℕ) (cur : List (List ℚ)) : List ℚ :=
  match features.get? i with
  | some fr => fr
  | none => ((cur.getLast?).getD []).drop 1

/-- One window update of the rollout (lstm_model.py lines 106-118): build a
new row whose column 0 is the one-step prediction and whose remaining
columns are the covariates, drop the oldest row, append the new row. -/
def rolloutNext (step : List (List ℚ) → ℚ) (features : List (List ℚ)) (i : ℕ)
    (cur : List (List ℚ)) : List (List ℚ) :=
  cur.drop 1 ++ [step cur :: rolloutCov features i cur]

/-- The loop of `predict_sequence` (lstm_model.py lines 98-120): at step i
predict from the current window, record the prediction, update the window. -/
def rolloutAux (step : List (List ℚ) → ℚ) (features : List (List ℚ)) :
    ℕ → ℕ → List (List ℚ) → List ℚ
  | _, 0, _ => []
  | i, n + 1, cur => step cur :: rolloutAux step features (i + 1) n (rolloutNext step features i cur)

/-- The full autoregressive rollout of `predict_sequence` started at loop
index 0 on the initial window. -/
def predictSequenceRollout (step : List (List ℚ) → ℚ) (features : List (List ℚ))
    (n : ℕ) (w : List (List ℚ)) : List ℚ :=
  rolloutAux step features 0 n w

/-- The window the rollout holds just before step j, starting from loop
index i (closed form of the loop state of lstm_model.py lines 98-118). -/
def windowFrom (step : List (List ℚ) → ℚ) (features : List (List ℚ)) :
    ℕ → List (List ℚ) → ℕ → List (List ℚ)
  | _, cur, 0 => cur
  | i, cur, j + 1 => windowFrom step features (i + 1) (rolloutNext step features i cur) j

/-- The window before step j of the full rollout. -/
def windowAt (step : List (List ℚ) → ℚ) (features : List (List ℚ))
    (w : List (List ℚ)) (j : ℕ) : List (List ℚ) :=
  windowFrom step features 0 w j

/-- LSTMForecaster (lstm_model.py).  `model` abstracts the trained network
as a function from a window to the one-step prediction
(`self.model.predict(...)[0, 0]` at line 103); `none` is the untrained state
`self.model is None`. -/
structure LSTMForecaster where
  sequence_length : ℕ
  n_features : ℕ
  model : Option (List (List ℚ) → ℚ)

/-- LSTMForecaster.predict_sequence (lstm_model.py lines 93-120). -/
def LSTMForecaster.predict_sequence (m : LSTMForecaster) (initial_sequence : List (List ℚ))
    (n_steps : ℕ) (features : List (List ℚ)) : Except PredictError (List ℚ) :=
  match m.model with
  | none => .error .modelNotTrained
  | some f => .ok (predictSequenceRollout f features n_steps initial_sequence)

/-- The lightweight sklearn variant (lstm_model_lite.py).  Its one-step
prediction first flattens the window, then applies the internally owned
StandardScaler and the MLP regressor; `model` abstracts that composition as
a single function on the flattened window, `none` is the untrained state. -/
structure LSTMForecasterLite where
  sequence_length : ℕ
  n_features : ℕ
  model : Option (List ℚ → ℚ)

/-- LSTMForecaster.predict_sequence of the lite variant (lstm_model_lite.py
lines 61-87): identical rollout, with the one-step model applied to the
flattened current window (`current_sequence.reshape(1, -1)`). -/
def LSTMForecasterLite.predict_sequence (m : LSTMForecasterLite)
    (initial_sequence : List (List ℚ)) (n_steps : ℕ) (features : List (List ℚ)) :
    Except PredictError (List ℚ) :=
  match m.model with
  | none => .error .modelNotTrained
  | some g => .ok (predictSequenceRollout (fun cur => g cur.flatten) features n_steps initial_sequence)

/-- Helper: the rollout always returns exactly n predictions. -/
theorem rolloutAux_length (step : List (List ℚ) → ℚ) (features : List (List ℚ)) :
    ∀ (n i : ℕ) (cur : List (List ℚ)), (rolloutAux step features i n cur).length = n := by
  intro n
  induction n with
  | zero => intro i cur; rfl
  | succ n ih => intro i cur; simp [rolloutAux, ih]

/-- Helper: the j-th prediction of the rollout is the one-step model applied
to the j-th window. -/
theorem rolloutAux_get? (step : List (List ℚ) → ℚ) (features : List (List ℚ)) :
    ∀ (n i : ℕ) (cur : List (List ℚ)) (j : ℕ), j < n →
      (rolloutAux step features i n cur).get? j =
        some (step (windowFrom step features i cur j)) := by
  intro n
  induction n with
  | zero => intro i cur j h; omega
  | succ n ih =>
    intro i cur j hj
    cases j with
    | zero => simp [rolloutAux, windowFrom, List.get?]
    | succ j =>
      simp only [rolloutAux, List.get?, windowFrom]
      exact ih (i + 1) (rolloutNext step features i cur) j (by omega)

/-- Helper: one rollout step keeps the length of a nonempty window. -/
theorem rolloutNext_length (step : List (List ℚ) → ℚ) (features : List (List ℚ))
    (i : ℕ) (cur : List (List ℚ)) (h : 0 < cur.length) :
    (rolloutNext step features i cur).length = cur.length := by
  simp only [rolloutNext, List.length_append, List.length_drop, List.length_cons,
    List.length_nil]
  omega

/-- Helper: the rollout windows all keep the initial length. -/
theorem windowFrom_length (step : List (List ℚ) → ℚ) (features : List (List ℚ)) :
    ∀ (j i : ℕ) (cur : List (List ℚ)), 0 < cur.length →
      (windowFrom step features i cur j).length = cur.length := by
  intro j
  induction j with
  | zero => intro i cur _; rfl
  | succ j ih =>
    intro i cur h
    have hnext := rolloutNext_length step features i cur h
    simp only [windowFrom]
    rw [ih (i + 1) (rolloutNext step features i cur) (by omega), hnext]

/-- Helper: the window recurrence seen from the right. -/
theorem windowFrom_succ (step : List (List ℚ) → ℚ) (features : List (List ℚ)) :
    ∀ (j i : ℕ) (cur : List (List ℚ)),
      windowFrom step features i cur (j + 1) =
        rolloutNext step features (i + j) (windowFrom step features i cur j) := by
  intro j
  induction j with
  | zero => intro i cur; rfl
  | succ j ih =>
    intro i cur
    have h1 : windowFrom step features i cur (j + 1 + 1) =
        windowFrom step features (i + 1) (rolloutNext step features i cur) (j + 1) := rfl
    rw [h1, ih (i + 1) (rolloutNext step features i cur)]
    have h2 : windowFrom step features (i + 1) (rolloutNext step features i cur) j =
        windowFrom step features i cur (j + 1) := rfl
    rw [h2]
    congr 1
    omega

/-- Claim C6: for a trained sequence forecaster (full or lite variant), an
initial window of positive length L and any n_steps, `predict_sequence`
returns exactly n_steps values computed autoregressively: the j-th value is
the one-step model applied to the j-th window, each successive window drops
its oldest row and appends a new last row whose column 0 is the prediction
and whose remaining columns are the provided future covariates for the step
when available and otherwise the covariates of the last row repeated, and every
window keeps length L throughout. -/
theorem C6_autoregressive_rollout (f : List (List ℚ) → ℚ) (g : List ℚ → ℚ)
    (features : List (List ℚ)) (n_steps : ℕ) (w : List (List ℚ)) (L sl nf : ℕ)
    (hw : w.length = L) (hL : 0 < L) :
    (LSTMForecaster.mk sl nf (some f)).predict_sequence w n_steps features =
      .ok (predictSequenceRollout f features n_steps w) ∧
    (LSTMForecasterLite.mk sl nf (some g)).predict_sequence w n_steps features =
      .ok (predictSequenceRollout (fun cur => g cur.flatten) features n_steps w) ∧
    (predictSequenceRollout f features n_steps w).length = n_steps ∧
    (∀ j, j < n_steps → (predictSequenceRollout f features n_steps w).get? j =
      some (f (windowAt f features w j))) ∧
    (∀ j, (windowAt f features w j).length = L) ∧
    (∀ j, windowAt f features w (j + 1) =
      (windowAt f features w j).drop 1 ++
        [f (windowAt f features w j) :: rolloutCov features j (windowAt f features w j)]) := by
  refine ⟨rfl, rfl, rolloutAux_length f features n_steps 0 w, ?_, ?_, ?_⟩
  · intro j hj
    exact rolloutAux_get? f features n_steps 0 w j hj
  · intro j
    rw [windowAt, windowFrom_length f features j 0 w (by omega), hw]
  · intro j
    have h := windowFrom_succ f features j 0 w
    simp only [windowAt, h, Nat.zero_add, rolloutNext]

/-- One-step model used by the C6 witness: reads the top-left entry of the
window. -/
def step0 : List (List ℚ) → ℚ := fun cur => (cur.headD []).headD 0

/-- Witness for C6 on a concrete 2-row window and 2 steps. -/
theorem C6_autoregressive_rollout_witness :
    (predictSequenceRollout step0 [] 2 [[1, 2], [3, 4]]).length = 2 ∧
    (predictSequenceRollout step0 [] 2 [[1, 2], [3, 4]]).get? 0 =
      some (step0 (windowAt step0 [] [[1, 2], [3, 4]] 0)) ∧
    (windowAt step0 [] [[1, 2], [3, 4]] 1).length = 2 := by
  have h := C6_autoregressive_rollout step0 (fun c => c.headD 0) [] 2 [[1, 2], [3, 4]]
    2 2 2 rfl (by omega)
  exact ⟨h.2.2.1, h.2.2.2.1 0 (by omega), h.2.2.2.2.1 1⟩

/-- Hour of day of an absolute hour index (the simplified ensemble derives
hour/day-of-week from real timestamps; hourly timestamps are embedded as
absolute hour counts from a fixed epoch). -/
def hourOf (t : ℕ) : ℕ := t % 24

/-- Day of week of an absolute hour index. -/
def dowOf (t : ℕ) : ℕ := t / 24 % 7

/-- State of the simplified statistical EnsemblePredictor
(ensemble_predictor_simple.py lines 14-20).  The untrained None statistics
are modelled as 0 and empty pattern tables; `historical_std` only scales the
random jitter drawn in predict, which is modelled as an explicit input list,
so it is not carried here. -/
structure SimpleEnsemble where
  trained : Bool
  historical_mean : ℚ
  hourly_patterns : List (ℕ × ℚ)
  daily_patterns : List (ℕ × ℚ)

/-- Mean of the values in df whose key (hour or day-of-week) equals k, as
`df.groupby(key)[target].mean()` produces for the groups that occur. -/
def groupMeanBy (df : List (ℕ × ℚ)) (key : ℕ → ℕ) (k : ℕ) : Option ℚ :=
  let vals := (df.filter (fun r => key r.1 == k)).map (fun r => r.2)
  if vals.length = 0 then none else some (vals.sum / (vals.length : ℚ))

/-- EnsemblePredictor.train of the simplified variant
(ensemble_predictor_simple.py lines 22-40): learn the overall mean, the
hour-of-day group means and the day-of-week group means, and mark trained. -/
def SimpleEnsemble.train (_s : SimpleEnsemble) (df : List (ℕ × ℚ)) : SimpleEnsemble :=
  { trained := true
    historical_mean := (df.map (fun r => r.2)).sum / (df.length : ℚ)
    hourly_patterns := (List.range 24).filterMap
      (fun h => (groupMeanBy df hourOf h).map (fun v => (h, v)))
    daily_patterns := (List.range 7).filterMap
      (fun d => (groupMeanBy df dowOf d).map (fun v => (d, v))) }

/-- Dictionary lookup with default, `patterns.get(k, default)`. -/
def patternLookup (pat : List (ℕ × ℚ)) (k : ℕ) (deflt : ℚ) : ℚ :=
  match pat.find? (fun r => r.1 == k) with
  | some r => r.2
  | none => deflt

/-- EnsemblePredictor.predict of the simplified variant
(ensemble_predictor_simple.py lines 42-73): if the model is untrained it
trains itself on the provided data first (line 44-45), then predicts
`hourly_pattern * (daily_pattern / mean) + jitter` for each future hour.
The `np.random.normal` jitter draws are passed in as the explicit list
`jitter`; the bounds and confidence columns are omitted (they depend on the
historical standard deviation, an irrational square root no claim refers
to). -/
def SimpleEnsemble.predict (s : SimpleEnsemble) (df : List (ℕ × ℚ)) (hours_ahead : ℕ)
    (jitter : List ℚ) : SimpleEnsemble × List ℚ :=
  let s := if s.trained then s else s.train df
  let lastT := match df.getLast? with
    | some r => r.1
    | none => 0
  (s, (List.range hours_ahead).map (fun i =>
    let t := lastT + i + 1
    let base := patternLookup s.hourly_patterns (hourOf t) s.historical_mean
    let factor := patternLookup s.daily_patterns (dowOf t) s.historical_mean / s.historical_mean
    base * factor + jitter.getD i 0))

/-- The freshly constructed, untrained simplified predictor
(ensemble_predictor_simple.py lines 15-20). -/
def SimpleEnsemble.untrained : SimpleEnsemble := ⟨false, 0, [], []⟩

/-- Claim C5 amended: the full ensemble and both sequence forecaster
variants raise a not-trained error when predict is called before train, but
the simplified statistical ensemble variant does not: its predict trains
itself implicitly on the provided data (ensemble_predictor_simple.py lines
44-45) and returns a forecast of the requested length. -/
theorem C5_untrained_predict_amended (lp pp : Option (List ℚ)) (sl nf n_steps : ℕ)
    (w features : List (List ℚ)) (df : List (ℕ × ℚ)) (jitter : List ℚ) :
    EnsemblePredictor.predict false lp pp = .error .modelsNotTrained ∧
    (LSTMForecaster.mk sl nf none).predict_sequence w n_steps features =
      .error .modelNotTrained ∧
    (LSTMForecasterLite.mk sl nf none).predict_sequence w n_steps features =
      .error .modelNotTrained ∧
    (SimpleEnsemble.untrained.predict df n_steps jitter).1.trained = true ∧
    (SimpleEnsemble.untrained.predict df n_steps jitter).2.length = n_steps := by
  refine ⟨rfl, rfl, rfl, ?_, ?_⟩
  · simp [SimpleEnsemble.predict, SimpleEnsemble.untrained, SimpleEnsemble.train]
  · simp [SimpleEnsemble.predict]

/-- Counterexample to C5 as stated: the simplified ensemble variant, called
untrained on the two-sample series [(hour 0, 10), (hour 1, 20)], does not
raise — it silently trains itself and returns the forecast [15, 15]. -/
theorem C5_implicit_training_counterexample :
    (SimpleEnsemble.untrained.predict [(0, 10), (1, 20)] 2 [0, 0]).1.trained = true ∧
    (SimpleEnsemble.untrained.predict [(0, 10), (1, 20)] 2 [0, 0]).2 = [15, 15] := by
  constructor
  · simp [SimpleEnsemble.predict, SimpleEnsemble.untrained, SimpleEnsemble.train]
  · simp only [SimpleEnsemble.predict, SimpleEnsemble.untrained, SimpleEnsemble.train]
    norm_num [groupMeanBy, patternLookup, hourOf, dowOf, List.range_succ]

/-- Square of a rational.  The z-score comparisons |x − mean| / std > t of
anomaly_detector.py are embedded in their equivalent squared form
(x − mean)² > t² · var, which avoids the irrational square root and agrees
with the IEEE evaluation of the source in every case, including a zero rolling
std (then the centered window contains x itself, so x = mean and the point
is not flagged, matching NaN > t being false). -/
def sqQ (q : ℚ) : ℚ := q * q

/-- Mean of a list of rationals, as `Series.mean()`. -/
def meanQ (xs : List ℚ) : ℚ := xs.sum / (xs.length : ℚ)

/-- Sample variance with ddof = 1, the square of `Series.std()` as pandas
computes it inside `rolling(...).std()` (the rolling windows always hold
exactly `window` elements, so the denominator is window − 1). -/
def sampleVar (xs : List ℚ) : ℚ :=
  ((xs.map (fun x => sqQ (x - meanQ xs))).sum) / ((xs.length : ℚ) - 1)

/-- config.py ANOMALY_THRESHOLD. -/
def ANOMALY_THRESHOLD : ℚ := 3

/-- config.py ANOMALY_WINDOW. -/
def ANOMALY_WINDOW : ℕ := 24

/-- Offset used by pandas for a centered rolling window:
(window − 1) / 2 in integer division. -/
def centeredOffset (w : ℕ) : ℕ := (w - 1) / 2

/-- The contents of the centered rolling window at index i, exactly as
`Series.rolling(window=w, center=True)` forms it: the slice
[i + 1 + offset − w, i + offset] of the data.  With the default
min_periods = window, indices whose window extends past either end of the
series produce NaN statistics; those are modelled as `none`. -/
def centeredWindow (data : List ℚ) (w i : ℕ) : Option (List ℚ) :=
  if w ≤ i + 1 + centeredOffset w ∧ i + 1 + centeredOffset w ≤ data.length then
    some ((data.drop (i + 1 + centeredOffset w - w)).take w)
  else none

/-- Severity labels of anomaly records (the medium and high strings of the
source). -/
inductive Severity where
  | medium : Severity
  | high : Severity
deriving DecidableEq

/-- One z-score anomaly record (anomaly_detector.py lines 35-44).  The
source additionally stores the z_score itself and the expected_range
mean ± threshold·std; both involve the irrational square root of the
rolling variance and are referenced by no claim, so they are omitted. -/
structure ZScoreAnomaly where
  index : ℕ
  value : ℚ
  severity : Severity
deriving DecidableEq

/-- The z-score test of a single index i (the loop body of
anomaly_detector.py lines 27-44): if the centered rolling statistics are
defined and |value − mean| / std > t (in squared form), emit a record whose
severity is high exactly when the z-score also exceeds 1.5·t. -/
def zscoreAt (data : List ℚ) (w : ℕ) (t : ℚ) (i : ℕ) : Option ZScoreAnomaly :=
  (centeredWindow data w i).bind (fun xs =>
    if sqQ t * sampleVar xs < sqQ (data.getD i 0 - meanQ xs) then
      some ⟨i, data.getD i 0,
        if sqQ ((3 / 2) * t) * sampleVar xs < sqQ (data.getD i 0 - meanQ xs) then
          Severity.high
        else Severity.medium⟩
    else none)

/-- AnomalyDetector.detect_zscore_anomalies (anomaly_detector.py lines
15-46). -/
def detect_zscore_anomalies (data : List ℚ) (w : ℕ) (t : ℚ) : List ZScoreAnomaly :=
  (List.range data.length).filterMap (zscoreAt data w t)

/-- Insert into a sorted list, keeping order. -/
def insertSorted (x : ℚ) : List ℚ → List ℚ
  | [] => [x]
  | y :: ys => if x ≤ y then x :: y :: ys else y :: insertSorted x ys

/-- Sort a list of rationals ascending (insertion sort; `np.percentile`
sorts its input). -/
def sortQ (xs : List ℚ) : List ℚ := xs.foldr insertSorted []

/-- np.percentile with the default linear interpolation: the value at
fractional rank p(n−1)/100 of the sorted data. -/
def percentileQ (xs : List ℚ) (p : ℕ) : ℚ :=
  let s := sortQ xs
  let n := s.length
  let lo := p * (n - 1) / 100
  let frac : ℚ := ((p * (n - 1) : ℕ) : ℚ) / 100 - (lo : ℚ)
  let base := s.getD lo 0
  base + frac * (s.getD (lo + 1) base - base)

/-- One IQR anomaly record (anomaly_detector.py lines 57-66); the
deviation field is omitted (no claim refers to it). -/
structure IQRAnomaly where
  index : ℕ
  value : ℚ
  severity : Severity
deriving DecidableEq

/-- AnomalyDetector.detect_iqr_anomalies (anomaly_detector.py lines 48-68):
bounds Q1 − 1.5·IQR and Q3 + 1.5·IQR over the whole series, severity high
outside an extended band of one additional IQR. -/
def detect_iqr_anomalies (data : List ℚ) : List IQRAnomaly :=
  let q1 := percentileQ data 25
  let q3 := percentileQ data 75
  let iqr := q3 - q1
  let lower_bound := q1 - (3 / 2) * iqr
  let upper_bound := q3 + (3 / 2) * iqr
  (List.range data.length).filterMap (fun i =>
    let v := data.getD i 0
    if v < lower_bound ∨ upper_bound < v then
      some ⟨i, v,
        if v < lower_bound - iqr ∨ upper_bound + iqr < v then Severity.high
        else Severity.medium⟩
    else none)

/-- Direction labels of sudden changes (the spike and drop strings of the
source). -/
inductive ChangeType where
  | spike : ChangeType
  | drop : ChangeType
deriving DecidableEq

/-- One sudden-change record (anomaly_detector.py lines 83-90); the
change_percent field, infinite when the previous value is zero, is omitted
(no claim refers to it). -/
structure SuddenChange where
  index : ℕ
  from_value : ℚ
  to_value : ℚ
  changeOf : ChangeType
  severity : Severity
deriving DecidableEq

/-- AnomalyDetector.detect_sudden_changes (anomaly_detector.py lines
70-92): `pct_change` between consecutive samples, flagged when its absolute
value exceeds the threshold.  Index 0 has no predecessor (pct_change NaN)
and is skipped.  A zero previous value makes pct_change ±inf (flagged, high
severity, direction by the sign of the current value) unless the current
value is also zero (0/0 NaN, skipped); those IEEE outcomes are spelled out
as the prev = 0 case. -/
def detect_sudden_changes (data : List ℚ) (ct : ℚ) : List SuddenChange :=
  (List.range data.length).filterMap (fun i =>
    if i = 0 then none
    else
      let prev := data.getD (i - 1) 0
      let cur := data.getD i 0
      if prev = 0 then
        if cur = 0 then none
        else some ⟨i, prev, cur, if 0 < cur then ChangeType.spike else ChangeType.drop,
          Severity.high⟩
      else
        let pct := cur / prev - 1
        if ct < |pct| then
          some ⟨i, prev, cur, if 0 < pct then ChangeType.spike else ChangeType.drop,
            if ct * 2 < |pct| then Severity.high else Severity.medium⟩
        else none)

/-- Round to two decimal places, as the Python round(x, 2): nearest multiple
of 1/100, ties to even (the source rounds the anomaly rate this way at
anomaly_detector.py line 109; no reachable value of the rate lands exactly
on a tie after the binary-float representation, so half-even on the exact
rational is faithful). -/
def round2 (q : ℚ) : ℚ :=
  let s := q * 100
  let f := ⌊s⌋
  let r := s - (f : ℚ)
  let n : ℤ :=
    if r < 1 / 2 then f
    else if 1 / 2 < r then f + 1
    else if f % 2 = 0 then f
    else f + 1
  (n : ℚ) / 100

/-- Result of AnomalyDetector.analyze_anomalies (anomaly_detector.py lines
94-112). -/
structure AnomalyAnalysis where
  zscore_anomalies : List ZScoreAnomaly
  iqr_anomalies : List IQRAnomaly
  sudden_changes : List SuddenChange
  total_anomalies : ℕ
  anomaly_rate : ℚ

/-- AnomalyDetector.analyze_anomalies (anomaly_detector.py lines 94-112):
run the three detectors (the z-score one with the configured window
ANOMALY_WINDOW = 24 and threshold, the sudden-change one with its default
threshold 0.3), total their counts, and report the rate as the rounded
percentage of z-score anomalies among all samples. -/
def analyze_anomalies (data : List ℚ) (t ct : ℚ) : AnomalyAnalysis :=
  let z := detect_zscore_anomalies data ANOMALY_WINDOW t
  let iq := detect_iqr_anomalies data
  let sc := detect_sudden_changes data ct
  { zscore_anomalies := z
    iqr_anomalies := iq
    sudden_changes := sc
    total_anomalies := z.length + iq.length + sc.length
    anomaly_rate := round2 ((z.length : ℚ) / (data.length : ℚ) * 100) }

/-- Helper: a defined centered window forces the index into range. -/
theorem centeredWindow_some_lt {data : List ℚ} {w i : ℕ} {xs : List ℚ}
    (h : centeredWindow data w i = some xs) : i < data.length := by
  by_cases hc : w ≤ i + 1 + centeredOffset w ∧ i + 1 + centeredOffset w ≤ data.length
  · omega
  · rw [centeredWindow, if_neg hc] at h
    exact absurd h (by simp)

/-- Helper: characterization of a successful z-score test at index i. -/
theorem zscoreAt_eq_some {data : List ℚ} {w : ℕ} {t : ℚ} {i : ℕ} {a : ZScoreAnomaly} :
    zscoreAt data w t i = some a ↔
    ∃ xs, centeredWindow data w i = some xs ∧
      sqQ t * sampleVar xs < sqQ (data.getD i 0 - meanQ xs) ∧
      a = ⟨i, data.getD i 0,
        if sqQ ((3 / 2) * t) * sampleVar xs < sqQ (data.getD i 0 - meanQ xs) then
          Severity.high
        else Severity.medium⟩ := by
  constructor
  · intro h
    rcases Option.bind_eq_some.mp h with ⟨xs, hxs, hif⟩
    refine ⟨xs, hxs, ?_, ?_⟩
    · by_cases hcond : sqQ t * sampleVar xs < sqQ (data.getD i 0 - meanQ xs)
      · exact hcond
      · rw [if_neg hcond] at hif
        exact absurd hif (by simp)
    · by_cases hcond : sqQ t * sampleVar xs < sqQ (data.getD i 0 - meanQ xs)
      · rw [if_pos hcond] at hif
        exact (Option.some.injEq _ _ ▸ hif).symm
      · rw [if_neg hcond] at hif
        exact absurd hif (by simp)
  · rintro ⟨xs, hxs, hcond, rfl⟩
    rw [zscoreAt, hxs, Option.some_bind, if_pos hcond]

/-- Claim C7: the z-score detector flags exactly those indices whose
centered rolling statistics are defined and whose squared deviation exceeds
the squared threshold times the rolling variance (the squared form of
|value − mean| / std > threshold); a flagged record carries the value at its
index and severity high exactly when the deviation also exceeds the
1.5·threshold level, medium otherwise; indices whose rolling statistics are
undefined (the edges of the series) are never flagged. -/
theorem C7_zscore_characterization (data : List ℚ) (w : ℕ) (t : ℚ) :
    (∀ i : ℕ,
      (∃ a, a ∈ detect_zscore_anomalies data w t ∧ a.index = i) ↔
      (∃ xs, centeredWindow data w i = some xs ∧
        sqQ t * sampleVar xs < sqQ (data.getD i 0 - meanQ xs))) ∧
    (∀ a, a ∈ detect_zscore_anomalies data w t →
      a.value = data.getD a.index 0 ∧
      ∃ xs, centeredWindow data w a.index = some xs ∧
        (a.severity = Severity.high ↔
          sqQ ((3 / 2) * t) * sampleVar xs < sqQ (a.value - meanQ xs)) ∧
        (a.severity = Severity.high ∨ a.severity = Severity.medium)) ∧
    (∀ i : ℕ, centeredWindow data w i = none →
      ∀ a, a ∈ detect_zscore_anomalies data w t → a.index ≠ i) := by
  have hmem : ∀ a, a ∈ detect_zscore_anomalies data w t ↔
      ∃ i, i ∈ List.range data.length ∧ zscoreAt data w t i = some a := by
    intro a
    exact List.mem_filterMap
  refine ⟨?_, ?_, ?_⟩
  · intro i
    constructor
    · rintro ⟨a, ha, rfl⟩
      rcases (hmem a).mp ha with ⟨j, _, hz⟩
      rcases zscoreAt_eq_some.mp hz with ⟨xs, hxs, hcond, ha2⟩
      have hidx : a.index = j := by rw [ha2]
      rw [hidx]
      exact ⟨xs, hxs, hcond⟩
    · rintro ⟨xs, hxs, hcond⟩
      refine ⟨⟨i, data.getD i 0,
        if sqQ ((3 / 2) * t) * sampleVar xs < sqQ (data.getD i 0 - meanQ xs) then
          Severity.high
        else Severity.medium⟩, ?_, rfl⟩
      refine (hmem _).mpr ⟨i, List.mem_range.mpr (centeredWindow_some_lt hxs), ?_⟩
      exact zscoreAt_eq_some.mpr ⟨xs, hxs, hcond, rfl⟩
  · intro a ha
    rcases (hmem a).mp ha with ⟨j, _, hz⟩
    rcases zscoreAt_eq_some.mp hz with ⟨xs, hxs, hcond, ha2⟩
    subst ha2
    refine ⟨rfl, xs, hxs, ?_, ?_⟩
    · by_cases hsev : sqQ ((3 / 2) * t) * sampleVar xs < sqQ (data.getD j 0 - meanQ xs)
      · rw [if_pos hsev]
        exact ⟨fun _ => hsev, fun _ => rfl⟩
      · rw [if_neg hsev]
        constructor
        · intro h
          exact absurd h (by simp)
        · intro h
          exact absurd h hsev
    · by_cases hsev : sqQ ((3 / 2) * t) * sampleVar xs < sqQ (data.getD j 0 - meanQ xs)
      · left; rw [if_pos hsev]
      · right; rw [if_neg hsev]
  · intro i hnone a ha hidx
    rcases (hmem a).mp ha with ⟨j, _, hz⟩
    rcases zscoreAt_eq_some.mp hz with ⟨xs, hxs, _, ha2⟩
    have : a.index = j := by rw [ha2]
    rw [this] at hidx
    subst hidx
    rw [hnone] at hxs
    exact absurd hxs (by simp)

/-- A 24-sample series, constant 0 with a single spike of 24 at index 12:
the only index whose centered 24-window fits inside the series is 12, and
there the z-score test fires (mean 1, sample variance 24, squared deviation
529 > 9·24, and also > 20.25·24, so severity high). -/
def spikeSeries : List ℚ := List.replicate 12 0 ++ 24 :: List.replicate 11 0

set_option maxRecDepth 10000 in
unseal Rat.add Rat.sub Rat.mul Rat.inv in
theorem C7_zscore_characterization_witness :
    ∃ a, a ∈ detect_zscore_anomalies spikeSeries 24 3 ∧ a.index = 12 :=
  ((C7_zscore_characterization spikeSeries 24 3).1 12).mpr
    ⟨spikeSeries, by decide, by decide⟩

/-- Claim C8 amended: `analyze_anomalies` reports total_anomalies as the sum
of the counts of all three methods, and anomaly_rate as the percentage of
z-score anomalies among all samples rounded to two decimal places (the IQR
and sudden-change counts do not enter the rate). -/
theorem C8_analysis_counts (data : List ℚ) (t ct : ℚ) :
    (analyze_anomalies data t ct).total_anomalies =
      (detect_zscore_anomalies data ANOMALY_WINDOW t).length +
      (detect_iqr_anomalies data).length + (detect_sudden_changes data ct).length ∧
    (analyze_anomalies data t ct).anomaly_rate =
      round2 (((detect_zscore_anomalies data ANOMALY_WINDOW t).length : ℚ) /
        (data.length : ℚ) * 100) :=
  ⟨rfl, rfl⟩

set_option maxRecDepth 10000 in
unseal Rat.add Rat.sub Rat.mul Rat.inv in
/-- Counterexample to C8 as stated: on the 24-sample spike series exactly
one z-score anomaly is found, so the claimed rate would be 100/24 = 25/6
percent, but the source rounds to two decimals (anomaly_detector.py line
109) and reports 4.17. -/
theorem C8_rate_rounding_counterexample :
    (analyze_anomalies spikeSeries ANOMALY_THRESHOLD (3 / 10)).anomaly_rate = 417 / 100 ∧
    ((detect_zscore_anomalies spikeSeries ANOMALY_WINDOW 3).length : ℚ) /
      (spikeSeries.length : ℚ) * 100 = 25 / 6 ∧
    (417 / 100 : ℚ) ≠ 25 / 6 := by decide

/-- Fitted state of the sklearn MinMaxScaler with the default feature range
(0, 1): the data minimum and maximum seen by fit. -/
structure MinMaxScaler where
  data_min : ℚ
  data_max : ℚ
deriving DecidableEq

/-- The sklearn `_handle_zeros_in_scale` helper: a zero data range (constant series)
is replaced by 1 so the scale factor is never a division by zero. -/
def handleZerosInScale (d : ℚ) : ℚ := if d = 0 then 1 else d

/-- The scale_ attribute: (range high − range low) / data range = 1 / range
for the default (0, 1) feature range. -/
def MinMaxScaler.scaleFactor (s : MinMaxScaler) : ℚ :=
  1 / handleZerosInScale (s.data_max - s.data_min)

/-- The min_ attribute: feature-range low − data_min · scale_. -/
def MinMaxScaler.minAdjust (s : MinMaxScaler) : ℚ := 0 - s.data_min * s.scaleFactor

/-- Fit on a series: record min and max (sklearn raises on an empty input,
modelled as `none`). -/
def MinMaxScaler.fit (data : List ℚ) : Option MinMaxScaler :=
  match data with
  | [] => none
  | x :: xs => some ⟨xs.foldl min x, xs.foldl max x⟩

/-- MinMaxScaler.transform of one element: x · scale_ + min_. -/
def MinMaxScaler.transform (s : MinMaxScaler) (x : ℚ) : ℚ :=
  x * s.scaleFactor + s.minAdjust

/-- MinMaxScaler.inverse_transform of one element: (y − min_) / scale_. -/
def MinMaxScaler.inverse_transform (s : MinMaxScaler) (y : ℚ) : ℚ :=
  (y - s.minAdjust) / s.scaleFactor

/-- DataPreprocessor.scale_features with fit=True (preprocessor.py lines
70-76): fit the target scaler on the series and return the fitted state and
the scaled series (the numpy reshape bookkeeping is elementwise identity). -/
def DataPreprocessor.scale_features (data : List ℚ) : Option (MinMaxScaler × List ℚ) :=
  (MinMaxScaler.fit data).map (fun s => (s, data.map s.transform))

/-- DataPreprocessor.inverse_scale (preprocessor.py lines 78-80). -/
def DataPreprocessor.inverse_scale (s : MinMaxScaler) (ys : List ℚ) : List ℚ :=
  ys.map s.inverse_transform

/-- Helper: the scale factor is never zero thanks to _handle_zeros_in_scale. -/
theorem scaleFactor_ne_zero (s : MinMaxScaler) : s.scaleFactor ≠ 0 := by
  rw [MinMaxScaler.scaleFactor, handleZerosInScale]
  split
  · norm_num
  · exact one_div_ne_zero (by assumption)

/-- Helper: transform then inverse_transform is the identity for any fitted
state. -/
theorem transform_roundtrip (s : MinMaxScaler) (x : ℚ) :
    s.inverse_transform (s.transform x) = x := by
  rw [MinMaxScaler.inverse_transform, MinMaxScaler.transform, add_sub_cancel_right]
  exact mul_div_cancel_right₀ x (scaleFactor_ne_zero s)

/-- Claim C9: for every series on which the target scaler is fitted,
applying transform and then inverse_transform with the same fitted
statistics returns the series unchanged, elementwise and exactly. -/
theorem C9_scaler_roundtrip (data : List ℚ) (s : MinMaxScaler) (scaled : List ℚ)
    (h : DataPreprocessor.scale_features data = some (s, scaled)) :
    DataPreprocessor.inverse_scale s scaled = data := by
  cases hfit : MinMaxScaler.fit data with
  | none =>
    rw [DataPreprocessor.scale_features, hfit] at h
    exact absurd h (by simp)
  | some s0 =>
    rw [DataPreprocessor.scale_features, hfit, Option.map_some'] at h
    injection h with h
    rw [Prod.mk.injEq] at h
    obtain ⟨hs, hscaled⟩ := h
    subst hs
    rw [← hscaled, DataPreprocessor.inverse_scale, List.map_map]
    have hcomp : (fun y => s0.inverse_transform y) ∘ s0.transform = fun x => x := by
      funext x
      exact transform_roundtrip s0 x
    rw [hcomp]
    simp

/-- Witness for C9 on the series [1, 2, 3]: the fitted scaler has min 1 and
max 3 and the round trip restores the series. -/
theorem C9_scaler_roundtrip_witness :
    DataPreprocessor.inverse_scale ⟨1, 3⟩
      ([(1 : ℚ), 2, 3].map (MinMaxScaler.transform ⟨1, 3⟩)) = [1, 2, 3] :=
  C9_scaler_roundtrip [1, 2, 3] ⟨1, 3⟩ _ rfl

/-- Claim C10: when both forecasts are present, every forecast row is
ordered lower ≤ point ≤ upper because the disagreement-based uncertainty is
nonnegative; and the invariant indeed fails in the single-forecast case for
a negative point, where the 10 percent uncertainty is negative: the
surviving forecast −10 yields lower bound −9 above the point −10. -/
theorem C10_bounds_ordering (l p : List ℚ) (rows : List ForecastRow)
    (h : EnsemblePredictor.predict true (some l) (some p) = .ok rows) :
    (∀ r ∈ rows, r.lower_bound ≤ r.predicted_demand ∧
      r.predicted_demand ≤ r.upper_bound) ∧
    (EnsemblePredictor.predict true (some [-10]) none = .ok [singleRow (-10)] ∧
      ¬ (singleRow (-10)).lower_bound ≤ (singleRow (-10)).predicted_demand) := by
  constructor
  · intro r hr
    have hrows : rows = List.zipWith combineRow l p := by
      simpa [EnsemblePredictor.predict] using h.symm
    subst hrows
    rcases mem_zipWith_exists combineRow hr with ⟨a, b, rfl⟩
    have habs : 0 ≤ |a - b| := abs_nonneg (a - b)
    constructor
    · simp only [combineRow]
      nlinarith
    · simp only [combineRow]
      nlinarith
  · constructor
    · rfl
    · simp only [singleRow, not_le]
      norm_num

/-- Witness for C10 at forecasts [1] and [3]. -/
theorem C10_bounds_ordering_witness :
    (combineRow 1 3).lower_bound ≤ (combineRow 1 3).predicted_demand ∧
    (combineRow 1 3).predicted_demand ≤ (combineRow 1 3).upper_bound :=
  (C10_bounds_ordering [1] [3] (List.zipWith combineRow [1] [3]) rfl).1
    (combineRow 1 3) (List.mem_singleton.mpr rfl)
